import Mathlib

/-!
Verification of the wgpu-fluid interactive fluid simulator (src/main.rs).

This file gives a shallow embedding of the CPU-side driver of the
simulator: the per-tick parameter record `SimParams`, the
`f32_to_f16` bit-level conversion, the density seed blob, the fixed
compute-dispatch schedule of one tick (the `RedrawRequested` handler),
and the winit event-loop state machine (mouse/touch handlers, surface
acquisition, post-present bookkeeping).

Floating-point scalar state (positions, deltas, field values) is
modelled over `ℚ`; the quantities the theorems below depend on are
either exact in `f32` (integer-valued coordinates, the constants `0`
and `1`) or are compared only for the exact values `0`/`1`, so the
rounding of `f32` arithmetic does not affect any stated property.
`f32_to_f16` itself is modelled exactly, as a function on 32-bit
patterns represented as `Nat`.

The GPU kernels live in `fluid.wgsl`, which is not part of the
source tree; only the dispatch schedule (which is entirely CPU-side)
is taken from `main.rs`.  Where a claim needs the kernels' buffer
behaviour, a definition explicitly marked `Modelled from the spec`
supplies it.
-/

namespace WgpuFluid

/-- The per-tick parameter record, src/main.rs lines 10–24.  The source
fields are, in order: `grid_size: u32`, `mouse_down: u32`, `dt: f32`,
`viscosity: f32`, `dissipation: f32`, `add_strength: f32`,
`mouse_pos: [f32; 2]`, `mouse_delta: [f32; 2]`, `radius: f32`,
`_pad0: f32`, `_pad1: [f32; 4]` (the two pad fields are rendered
`pad0`/`pad1` here).  There is no iteration-count field of any kind. -/
structure SimParams where
  grid_size : Nat
  mouse_down : Nat
  dt : ℚ
  viscosity : ℚ
  dissipation : ℚ
  add_strength : ℚ
  mouse_pos : ℚ × ℚ
  mouse_delta : ℚ × ℚ
  radius : ℚ
  pad0 : ℚ
  pad1 : ℚ × ℚ × ℚ × ℚ
deriving DecidableEq

/-- `const GRID_SIZE: u32 = 256;`, src/main.rs line 26. -/
def GRID_SIZE : Nat := 256

/-- `let sign = (bits >> 16) & 0x8000;`, src/main.rs line 30. -/
def f32sign_field (bits : Nat) : Nat := (bits >>> 16) &&& 0x8000

/-- The biased 8-bit exponent field `(bits >> 23) & 0xFF` of an `f32`
bit pattern, src/main.rs line 31. -/
def f32exp_field (bits : Nat) : Nat := (bits >>> 23) &&& 0xFF

/-- `let frac = bits & 0x007FFFFF;`, src/main.rs line 32. -/
def f32frac_field (bits : Nat) : Nat := bits &&& 0x007FFFFF

/-- `fn f32_to_f16(value: f32) -> u16`, src/main.rs lines 28–36,
as a pure function on the 32-bit pattern of its argument.  The Rust
`exp` is `i32` arithmetic (`- 127 + 15`), modelled with `Int`; the
final `as u16` casts are the `% 2 ^ 16` truncations. -/
def f32_to_f16 (bits : Nat) : Nat :=
  let sign := f32sign_field bits
  let exp : Int := (f32exp_field bits : Int) - 127 + 15
  let frac := f32frac_field bits
  if exp ≤ 0 then 0
  else if 31 ≤ exp then (sign ||| 0x7C00) % 2 ^ 16
  else (sign ||| (exp.toNat <<< 10) ||| (frac >>> 13)) % 2 ^ 16

/-- The sign bit (bit 31) of a 32-bit pattern. -/
def f32signBit (bits : Nat) : Nat := bits >>> 31

/-- A 32-bit pattern denotes a NaN iff its exponent field is all ones
and its fraction field is nonzero. -/
def f32IsNaN (bits : Nat) : Prop :=
  f32exp_field bits = 255 ∧ f32frac_field bits ≠ 0

/-- The magnitude denoted by a finite 32-bit IEEE-754 pattern:
`frac · 2 ^ (-149)` for the subnormal range (exponent field `0`), and
`(2 ^ 23 + frac) · 2 ^ (e - 150)` for a biased exponent field `e ≥ 1`,
written over `ℚ` with nonnegative exponents only. -/
def f32mag (bits : Nat) : ℚ :=
  if f32exp_field bits = 0 then (f32frac_field bits : ℚ) / 2 ^ 149
  else ((2 ^ 23 : ℚ) + (f32frac_field bits : ℚ)) * 2 ^ f32exp_field bits / 2 ^ 150

/-- The value seeded into the density blob at cell `(x, y)`,
src/main.rs lines 215–219: with `cx = cy = GRID_SIZE / 2` and
`r = 30.0`, the value is `(1 − (dx·dx + dy·dy)/(r·r)).max(0)`.  All
inputs of the `f32` computation are integers below `2 ^ 24`, so the
squares and their sum are exact; the division and subtraction are
taken over `ℚ`. -/
def seed_val (x y : Nat) : ℚ :=
  let cx : ℚ := (GRID_SIZE : ℚ) / 2
  let cy : ℚ := (GRID_SIZE : ℚ) / 2
  let r : ℚ := 30
  let dx : ℚ := (x : ℚ) - cx
  let dy : ℚ := (y : ℚ) - cy
  max (1 - (dx * dx + dy * dy) / (r * r)) 0

/-- The initial density field: the seed blob is uploaded into the
density texture (src/main.rs lines 211–234); only channel 0 of each
texel is written, so the scalar density value at `(x, y)` is
`seed_val x y`. -/
def initial_density (x y : Nat) : ℚ := seed_val x y

/-- The initial velocity field.  Every storage texture is allocated by
`create_storage_tex` (src/main.rs lines 38–54) via
`wgpu::Device::create_texture`, whose contract zero-initializes the
texture contents; no upload ever targets the velocity texture before
the first tick. -/
def initial_velocity (_x _y : Nat) : ℚ × ℚ := (0, 0)

/-- The initial pressure field: zero-initialized at allocation,
see `initial_velocity`. -/
def initial_pressure (_x _y : Nat) : ℚ := 0

/-- The initial divergence field: zero-initialized at allocation,
see `initial_velocity`. -/
def initial_divergence (_x _y : Nat) : ℚ := 0

/-- The `SimParams` value constructed at startup, src/main.rs
lines 237–241. -/
def initial_sim_params : SimParams :=
  { grid_size := GRID_SIZE
    mouse_down := 0
    dt := 16 / 1000
    viscosity := 1 / 10000
    dissipation := 998 / 1000
    add_strength := 2
    mouse_pos := (128, 128)
    mouse_delta := (0, 0)
    radius := 35
    pad0 := 0
    pad1 := (0, 0, 0, 0) }

/-- A second, fully distinct parameter record (every configurable
field differs from `initial_sim_params`). -/
def alt_sim_params : SimParams :=
  { grid_size := 128
    mouse_down := 1
    dt := 1
    viscosity := 1
    dissipation := 1 / 2
    add_strength := 5
    mouse_pos := (0, 0)
    mouse_delta := (1, 1)
    radius := 10
    pad0 := 1
    pad1 := (1, 2, 3, 4) }

/-- The configuration-error outcome the specification prescribes for
construction-time validation. -/
inductive ConfigError where
  | invalidConfig
deriving DecidableEq

/-- The program's construction path viewed as a function of an
externally requested grid size `n` and timestep `dt`.  `main` reads no
such configuration: the grid size is the compile-time constant
`GRID_SIZE = 256` (src/main.rs line 26) and the timestep is the
literal `0.016` (line 238), so as a function of the requested
configuration the initialization is constant and has no failure
branch — it never inspects `n` or `dt` and never returns an error. -/
def code_init (_n : Int) (_dt : ℚ) : Except ConfigError SimParams :=
  .ok initial_sim_params

/-- The compute entry points of one tick, src/main.rs lines 345–353:
one constructor per compute pipeline created by `make_compute`. -/
inductive Stage where
  | addSource
  | advectVel
  | copyVel
  | advectDens
  | copyDens
  | divergence
  | pressureA
  | pressureB
  | subtractGradient
deriving DecidableEq

/-- The dispatch schedule of the compute pass of one
`RedrawRequested` tick, src/main.rs lines 481–500: `add_source`,
`advect_vel`, `copy_vel`, `advect_dens`, `copy_dens`,
`compute_divergence`, then `for _ in 0..20 { pressure_jacobi_a;
pressure_jacobi_b }`, then `subtract_gradient`. -/
def tickStages : List Stage :=
  [.addSource, .advectVel, .copyVel, .advectDens, .copyDens, .divergence]
    ++ (List.replicate 20 [Stage.pressureA, Stage.pressureB]).flatten
    ++ [.subtractGradient]

/-- The Jacobi pressure sweeps of one tick, in dispatch order. -/
def pressureSweeps : List Stage :=
  tickStages.filter fun st => st == Stage.pressureA || st == Stage.pressureB

/-- The two pressure buffers (`press` and `press_tmp`,
src/main.rs lines 207–208). -/
inductive PressureBuf where
  | A
  | B
deriving DecidableEq

/-- Modelled from the spec: the kernels `pressure_jacobi_a` and
`pressure_jacobi_b` live in `fluid.wgsl`, which is absent from the
source tree; per the spec's projector design, each sweep reads the
entire prior iterate from one pressure buffer and writes the next
iterate to the other, with the `a` kernel reading buffer A and the `b`
kernel reading buffer B.  This function gives the buffer each sweep
kernel reads. -/
def sweepReads : Stage → Option PressureBuf
  | .pressureA => some .A
  | .pressureB => some .B
  | _ => none

/-- Modelled from the spec: the buffer each sweep kernel writes; see
`sweepReads`. -/
def sweepWrites : Stage → Option PressureBuf
  | .pressureA => some .B
  | .pressureB => some .A
  | _ => none

/-- Outcome of `surface.get_current_texture()`, src/main.rs
lines 459–469: success, the two reconfigure-and-return errors
(`Lost`, `Outdated`), or any other surface error (logged, return). -/
inductive SurfaceResult where
  | ok
  | lost
  | outdated
  | otherError
deriving DecidableEq

/-- The window events handled by the event loop, src/main.rs
lines 381–537.  Pointer coordinates are the raw device position;
`redrawRequested` carries the outcome of surface acquisition;
`resized` carries the new physical size. -/
inductive LoopEvent where
  | mouseLeft (pressed : Bool)
  | cursorMoved (px py : ℚ)
  | touchStarted (px py : ℚ)
  | touchMoved (px py : ℚ)
  | touchEnded
  | touchCancelled
  | redrawRequested (sr : SurfaceResult)
  | resized (w h : Nat)
deriving DecidableEq

/-- The mutable state of the event loop: `sim_params` (the record the
handlers mutate), `last_mouse` (the `Option<(f32, f32)>` of line 374),
the cached window size (line 375), the parameter record last uploaded
to the GPU uniform buffer (`queue.write_buffer`, line 457), and the
committed simulation fields, abstracted over a type `F` because the
field contents are produced by the GPU kernels. -/
structure LoopState (F : Type) where
  sim_params : SimParams
  last_mouse : Option (ℚ × ℚ)
  window_w : Nat
  window_h : Nat
  uploaded_params : SimParams
  fields : F

/-- The device-to-grid scale factor
`GRID_SIZE as f32 / window_size.width.max(1) as f32`,
src/main.rs lines 405–406 and 418–419. -/
def gridScale (w : Nat) : ℚ := (GRID_SIZE : ℚ) / ((max w 1 : Nat) : ℚ)

/-- Device position to grid-space position, src/main.rs
lines 405–408 and 418–421. -/
def toGrid (w h : Nat) (px py : ℚ) : ℚ × ℚ :=
  (px * gridScale w, py * gridScale h)

/-- One step of the event loop, src/main.rs lines 381–537, returning
the successor state and the list of compute dispatches submitted while
handling the event.  `runTick` abstracts the effect of the submitted
compute pass on the committed fields (the kernels are in `fluid.wgsl`,
outside the source tree); it receives the uploaded parameter record.
On a surface error the handler returns before any encoder is created,
so nothing is submitted; on success the compute pass runs and, after
`frame.present()`, `mouse_delta` is reset to `[0.0, 0.0]` (line 525).
`Resized` updates the cached window size only for positive sizes
(lines 386–393). -/
def step {F : Type} (runTick : SimParams → F → F) (s : LoopState F) (e : LoopEvent) :
    LoopState F × List Stage :=
  match e with
  | .mouseLeft pressed =>
    let s1 := { s with sim_params := { s.sim_params with
                  mouse_down := if pressed then 1 else 0 } }
    if pressed then (s1, [])
    else ({ s1 with last_mouse := none,
                    sim_params := { s1.sim_params with mouse_delta := (0, 0) } }, [])
  | .cursorMoved px py =>
    let m := toGrid s.window_w s.window_h px py
    let d := match s.last_mouse with
      | some p => (m.1 - p.1, m.2 - p.2)
      | none => s.sim_params.mouse_delta
    ({ s with sim_params := { s.sim_params with mouse_delta := d, mouse_pos := m },
              last_mouse := some m }, [])
  | .touchStarted px py =>
    let m := toGrid s.window_w s.window_h px py
    ({ s with sim_params := { s.sim_params with mouse_down := 1, mouse_pos := m },
              last_mouse := some m }, [])
  | .touchMoved px py =>
    let m := toGrid s.window_w s.window_h px py
    let d := match s.last_mouse with
      | some p => (m.1 - p.1, m.2 - p.2)
      | none => s.sim_params.mouse_delta
    ({ s with sim_params := { s.sim_params with mouse_delta := d, mouse_pos := m },
              last_mouse := some m }, [])
  | .touchEnded =>
    ({ s with sim_params := { s.sim_params with mouse_down := 0, mouse_delta := (0, 0) },
              last_mouse := none }, [])
  | .touchCancelled =>
    ({ s with sim_params := { s.sim_params with mouse_down := 0, mouse_delta := (0, 0) },
              last_mouse := none }, [])
  | .redrawRequested sr =>
    let s1 := { s with uploaded_params := s.sim_params }
    match sr with
    | .ok =>
      ({ s1 with fields := runTick s1.uploaded_params s1.fields,
                 sim_params := { s1.sim_params with mouse_delta := (0, 0) } },
       tickStages)
    | _ => (s1, [])
  | .resized w h =>
    if 0 < w ∧ 0 < h then ({ s with window_w := w, window_h := h }, [])
    else (s, [])

/-- Whether an event is a pointer-move event (the only handlers that
can set a nonzero `mouse_delta`). -/
def isMoveEvent : LoopEvent → Bool
  | .cursorMoved _ _ => true
  | .touchMoved _ _ => true
  | _ => false

/-- The pointer deltas consumed by completed ticks along a trace: for
each successfully presented `RedrawRequested`, the `mouse_delta` of
the parameter record uploaded for that tick (the value of
`sim_params.mouse_delta` when `queue.write_buffer` runs, line 457). -/
def consumedDeltas {F : Type} (runTick : SimParams → F → F) :
    LoopState F → List LoopEvent → List (ℚ × ℚ)
  | _, [] => []
  | s, e :: rest =>
    if e = .redrawRequested .ok then
      s.sim_params.mouse_delta :: consumedDeltas runTick (step runTick s e).1 rest
    else
      consumedDeltas runTick (step runTick s e).1 rest

/-- A trivial field-transition function over a unit field store, for
concrete instantiations. -/
def rt0 : SimParams → Unit → Unit := fun _ u => u

/-- A concrete loop state over the unit field store with the given
parameter record, no recorded pointer position, and an 800×800
window. -/
def mkState (p : SimParams) : LoopState Unit :=
  { sim_params := p
    last_mouse := none
    window_w := 800
    window_h := 800
    uploaded_params := p
    fields := () }

/-- A concrete event trace with two completed ticks, one failed
surface acquisition, and no pointer-move event. -/
def tr0 : List LoopEvent :=
  [.mouseLeft true, .redrawRequested .ok, .redrawRequested .lost, .redrawRequested .ok]

/-- Claim C1: every tick executes the stages in exactly the fixed
order force-injection (`add_source`), velocity advection, commit
(`copy_vel`), density advection, commit (`copy_dens`), divergence,
the Jacobi pressure sweeps, gradient subtraction — no stage omitted,
reordered, or repeated within the tick other than the sweep loop —
and one `RedrawRequested` call submits exactly this one full tick. -/
theorem tick_stage_order {F : Type} (runTick : SimParams → F → F) (s : LoopState F) :
    (step runTick s (.redrawRequested .ok)).2 = tickStages
    ∧ tickStages =
        [.addSource, .advectVel, .copyVel, .advectDens, .copyDens, .divergence,
         .pressureA, .pressureB, .pressureA, .pressureB,
         .pressureA, .pressureB, .pressureA, .pressureB,
         .pressureA, .pressureB, .pressureA, .pressureB,
         .pressureA, .pressureB, .pressureA, .pressureB,
         .pressureA, .pressureB, .pressureA, .pressureB,
         .pressureA, .pressureB, .pressureA, .pressureB,
         .pressureA, .pressureB, .pressureA, .pressureB,
         .pressureA, .pressureB, .pressureA, .pressureB,
         .pressureA, .pressureB, .pressureA, .pressureB,
         .pressureA, .pressureB, .pressureA, .pressureB,
         .subtractGradient]
    ∧ tickStages.count .addSource = 1
    ∧ tickStages.count .advectVel = 1
    ∧ tickStages.count .copyVel = 1
    ∧ tickStages.count .advectDens = 1
    ∧ tickStages.count .copyDens = 1
    ∧ tickStages.count .divergence = 1
    ∧ tickStages.count .subtractGradient = 1 := by
  refine ⟨rfl, ?_, ?_, ?_, ?_, ?_, ?_, ?_, ?_⟩ <;> decide

/-- Claim C2: the pressure solve performs a fixed number of Jacobi
sweeps per tick (40, two per iteration of the 20-round loop) lying in
the spec's default range 20–40, and consecutive sweeps alternate
between the two pressure buffers — each sweep reads one buffer and
writes the other, never in place, and each sweep reads the buffer the
previous sweep wrote. -/
theorem pressure_sweep_schedule :
    pressureSweeps.length = 40
    ∧ 20 ≤ pressureSweeps.length
    ∧ pressureSweeps.length ≤ 40
    ∧ (pressureSweeps.all fun st => sweepReads st != sweepWrites st) = true
    ∧ ((pressureSweeps.zip pressureSweeps.tail).all fun p =>
        (sweepWrites p.1 != sweepWrites p.2) && (sweepReads p.2 == sweepWrites p.1)) = true := by
  refine ⟨?_, ?_, ?_, ?_, ?_⟩ <;> decide

/-- Claim C3, counterexample: the per-tick parameter record contains
no `jacobi_iterations` field, and no field of the record configures
the number of pressure sweeps — two parameter records differing in
every configurable field produce the identical dispatch schedule with
exactly 40 Jacobi sweep dispatches. -/
theorem jacobi_count_counterexample :
    initial_sim_params ≠ alt_sim_params
    ∧ (step rt0 (mkState initial_sim_params) (.redrawRequested .ok)).2
        = (step rt0 (mkState alt_sim_params) (.redrawRequested .ok)).2
    ∧ (step rt0 (mkState initial_sim_params) (.redrawRequested .ok)).2.count .pressureA
        + (step rt0 (mkState initial_sim_params) (.redrawRequested .ok)).2.count .pressureB
        = 40 := by
  refine ⟨?_, rfl, ?_⟩ <;> decide

/-- Claim C3, amended: the per-tick parameter record has no
`jacobi_iterations` field; the number of pressure-solve sweeps is the
hard-coded constant 40 (a `for _ in 0..20` loop dispatching
`pressure_jacobi_a` and `pressure_jacobi_b` each round), identical for
every parameter record and every loop state. -/
theorem jacobi_count_fixed {F : Type} (runTick : SimParams → F → F) (s : LoopState F) :
    (step runTick s (.redrawRequested .ok)).2.count .pressureA = 20
    ∧ (step runTick s (.redrawRequested .ok)).2.count .pressureB = 20 := by
  constructor
  · show tickStages.count Stage.pressureA = 20
    decide
  · show tickStages.count Stage.pressureB = 20
    decide

/-- Claim C5, counterexample: the claimed construction-time validation
does not exist — the program reads no grid-size or timestep
configuration (both are hard-coded constants), so even for the invalid
request `n = -1`, `dt = 0` initialization yields the fixed parameter
record and no configuration error. -/
theorem init_unchecked_counterexample :
    code_init (-1) 0 = .ok initial_sim_params
    ∧ code_init (-1) 0 ≠ .error .invalidConfig := by
  exact ⟨rfl, fun h => by cases h⟩

/-- Claim C5, amended: grid size and timestep are compile-time
constants (`GRID_SIZE = 256` and `dt = 0.016`), both valid
(`N > 0`, `dt > 0`); there is no construction-time configuration
input, so no invalid configuration can arise and initialization has no
rejection or error path — it is the same successful constant for every
requested configuration. -/
theorem init_constants_valid :
    0 < GRID_SIZE
    ∧ initial_sim_params.grid_size = 256
    ∧ (0 : ℚ) < initial_sim_params.dt
    ∧ ∀ (n : Int) (dt : ℚ), code_init n dt = .ok initial_sim_params := by
  refine ⟨by decide, rfl, by norm_num [initial_sim_params], fun n dt => rfl⟩

/-- Claim C4: on any failure of surface acquisition (every
`SurfaceError`, including `Lost` and `Outdated`), the handler returns
before creating an encoder, so no compute work is submitted for that
tick and the committed simulation fields are exactly those of the last
fully completed tick. -/
theorem surface_error_preserves_fields {F : Type} (runTick : SimParams → F → F)
    (s : LoopState F) (sr : SurfaceResult) (h : sr ≠ .ok) :
    (step runTick s (.redrawRequested sr)).1.fields = s.fields
    ∧ (step runTick s (.redrawRequested sr)).2 = [] := by
  cases sr with
  | ok => exact absurd rfl h
  | lost => exact ⟨rfl, rfl⟩
  | outdated => exact ⟨rfl, rfl⟩
  | otherError => exact ⟨rfl, rfl⟩

/-- Witness for `surface_error_preserves_fields` at a concrete state
over a `Nat` field store and a `Lost` surface. -/
theorem surface_error_preserves_fields_witness :
    (step (fun _ (n : Nat) => n + 1)
        ⟨initial_sim_params, none, 800, 800, initial_sim_params, 7⟩
        (.redrawRequested .lost)).1.fields = 7
    ∧ (step (fun _ (n : Nat) => n + 1)
        ⟨initial_sim_params, none, 800, 800, initial_sim_params, 7⟩
        (.redrawRequested .lost)).2 = [] :=
  surface_error_preserves_fields (fun _ n => n + 1)
    ⟨initial_sim_params, none, 800, 800, initial_sim_params, 7⟩ .lost (by decide)

/-- Claim C6: every pointer-release event — left-button release, touch
ended, touch cancelled — sets the active flag `mouse_down` to `0`,
resets `mouse_delta` to exactly `(0, 0)`, and clears the recorded
previous position, before any later tick's parameters are uploaded. -/
theorem pointer_release_resets {F : Type} (runTick : SimParams → F → F)
    (s : LoopState F) (e : LoopEvent)
    (h : e = .mouseLeft false ∨ e = .touchEnded ∨ e = .touchCancelled) :
    (step runTick s e).1.sim_params.mouse_down = 0
    ∧ (step runTick s e).1.sim_params.mouse_delta = (0, 0)
    ∧ (step runTick s e).1.last_mouse = none := by
  rcases h with h | h | h <;> subst h <;> exact ⟨rfl, rfl, rfl⟩

/-- Witness for `pointer_release_resets`: a touch-ended event on a
state whose parameter record has `mouse_down = 1` and a nonzero
delta. -/
theorem pointer_release_resets_witness :
    (step rt0 (mkState alt_sim_params) .touchEnded).1.sim_params.mouse_down = 0
    ∧ (step rt0 (mkState alt_sim_params) .touchEnded).1.sim_params.mouse_delta = (0, 0)
    ∧ (step rt0 (mkState alt_sim_params) .touchEnded).1.last_mouse = none :=
  pointer_release_resets rt0 (mkState alt_sim_params) .touchEnded (Or.inr (Or.inl rfl))

/-- Only the two pointer-move handlers can make `mouse_delta` nonzero:
every other event preserves a zero delta. -/
theorem delta_zero_preserved {F : Type} (runTick : SimParams → F → F) (s : LoopState F)
    (e : LoopEvent) (hz : s.sim_params.mouse_delta = (0, 0))
    (hm : isMoveEvent e = false) :
    (step runTick s e).1.sim_params.mouse_delta = (0, 0) := by
  cases e with
  | mouseLeft pressed =>
    cases pressed with
    | false => rfl
    | true => exact hz
  | cursorMoved px py => simp [isMoveEvent] at hm
  | touchStarted px py => exact hz
  | touchMoved px py => simp [isMoveEvent] at hm
  | touchEnded => rfl
  | touchCancelled => rfl
  | redrawRequested sr =>
    cases sr with
    | ok => rfl
    | lost => exact hz
    | outdated => exact hz
    | otherError => exact hz
  | resized w h =>
    simp only [step]
    split
    · exact hz
    · exact hz

/-- Along any trace with no pointer-move event, starting from a zero
stored delta, every completed tick consumes the delta `(0, 0)`. -/
theorem consumed_all_zero {F : Type} (runTick : SimParams → F → F) :
    ∀ (trace : List LoopEvent) (s : LoopState F),
      s.sim_params.mouse_delta = (0, 0) →
      (trace.all fun e => !isMoveEvent e) = true →
      ∀ d ∈ consumedDeltas runTick s trace, d = (0, 0) := by
  intro trace
  induction trace with
  | nil =>
    intro s _ _ d hd
    simp [consumedDeltas] at hd
  | cons e rest ih =>
    intro s hz hall d hd
    rw [List.all_cons, Bool.and_eq_true] at hall
    have hm : isMoveEvent e = false := by simpa using hall.1
    have hz' := delta_zero_preserved runTick s e hz hm
    rw [consumedDeltas] at hd
    split at hd
    · rcases List.mem_cons.mp hd with h | h
      · rw [h]; exact hz
      · exact ih _ hz' hall.2 d h
    · exact ih _ hz' hall.2 d hd

/-- Claim C9: the pointer delta is tick-local.  After every
successfully presented frame the stored `mouse_delta` is `(0, 0)`; a
cursor-move or touch-move arriving when no previous position is
recorded (`last_mouse = none`, as after a release) records the new
position without producing a delta; and from a zero delta, a trace
containing no further move events only ever consumes `(0, 0)` at its
completed ticks — so a single movement contributes its delta to at
most one completed tick. -/
theorem delta_tick_local {F : Type} (runTick : SimParams → F → F)
    (s s2 s3 : LoopState F) (px py : ℚ) (trace : List LoopEvent)
    (h1 : s2.last_mouse = none)
    (h2 : s3.sim_params.mouse_delta = (0, 0))
    (h3 : (trace.all fun e => !isMoveEvent e) = true) :
    (step runTick s (.redrawRequested .ok)).1.sim_params.mouse_delta = (0, 0)
    ∧ (step runTick s2 (.cursorMoved px py)).1.sim_params.mouse_delta
        = s2.sim_params.mouse_delta
    ∧ (step runTick s2 (.touchMoved px py)).1.sim_params.mouse_delta
        = s2.sim_params.mouse_delta
    ∧ ((consumedDeltas runTick s3 trace).all
        fun d => d == ((0 : ℚ), (0 : ℚ))) = true := by
  refine ⟨rfl, ?_, ?_, ?_⟩
  · simp only [step, h1]
  · simp only [step, h1]
  · rw [List.all_eq_true]
    intro d hd
    have hdz := consumed_all_zero runTick trace s3 h2 h3 d hd
    simp [hdz]

/-- Witness for `delta_tick_local`: concrete states over the unit
field store and the trace `tr0` (two completed ticks, one failed
acquisition, no move events). -/
theorem delta_tick_local_witness :
    (step rt0 (mkState alt_sim_params) (.redrawRequested .ok)).1.sim_params.mouse_delta
        = (0, 0)
    ∧ (step rt0 (mkState alt_sim_params) (.cursorMoved 3 4)).1.sim_params.mouse_delta
        = (mkState alt_sim_params).sim_params.mouse_delta
    ∧ (step rt0 (mkState alt_sim_params) (.touchMoved 3 4)).1.sim_params.mouse_delta
        = (mkState alt_sim_params).sim_params.mouse_delta
    ∧ ((consumedDeltas rt0 (mkState initial_sim_params) tr0).all
        fun d => d == ((0 : ℚ), (0 : ℚ))) = true :=
  delta_tick_local rt0 (mkState alt_sim_params) (mkState alt_sim_params)
    (mkState initial_sim_params) 3 4 tr0 rfl rfl (by decide)

/-- Claim C10: conversion of device pointer coordinates to grid space
divides the grid size by the window width and height each clamped to
at least 1, so for every window size — including width or height 0 —
the divisor is strictly positive and the computation never divides by
zero; all three pointer handlers use this scaling. -/
theorem grid_scale_no_div_zero {F : Type} (runTick : SimParams → F → F)
    (s : LoopState F) (px py : ℚ) (w : Nat) :
    0 < max w 1
    ∧ ((max w 1 : Nat) : ℚ) ≠ 0
    ∧ gridScale w = (256 : ℚ) / ((max w 1 : Nat) : ℚ)
    ∧ gridScale 0 = 256
    ∧ (step runTick s (.cursorMoved px py)).1.sim_params.mouse_pos
        = (px * gridScale s.window_w, py * gridScale s.window_h)
    ∧ (step runTick s (.touchStarted px py)).1.sim_params.mouse_pos
        = (px * gridScale s.window_w, py * gridScale s.window_h)
    ∧ (step runTick s (.touchMoved px py)).1.sim_params.mouse_pos
        = (px * gridScale s.window_w, py * gridScale s.window_h) := by
  refine ⟨by omega, Nat.cast_ne_zero.mpr (by omega), ?_, ?_, rfl, rfl, rfl⟩
  · norm_num [gridScale, GRID_SIZE]
  · norm_num [gridScale, GRID_SIZE]

/-- Claim C7: the density seed is a blob centred at
`(GRID_SIZE/2, GRID_SIZE/2) = (128, 128)` with radius `30`, whose
value at cell `(x, y)` at squared distance `d²` from the centre is
`max 0 (1 − d²/r²)` — hence exactly `0` at every cell with `d ≥ r` —
and the `f32` pattern of `0.0` converts to the `f16` pattern `0`;
all other fields start zeroed. -/
theorem seed_blob_spec (x y x2 y2 : Nat)
    (hd : (30 : ℚ) ^ 2 ≤ ((x2 : ℚ) - 128) ^ 2 + ((y2 : ℚ) - 128) ^ 2) :
    seed_val x y
      = max 0 (1 - (((x : ℚ) - 128) ^ 2 + ((y : ℚ) - 128) ^ 2) / 30 ^ 2)
    ∧ seed_val x2 y2 = 0
    ∧ seed_val 128 128 = 1
    ∧ initial_density x y = seed_val x y
    ∧ f32_to_f16 0 = 0
    ∧ initial_velocity x y = (0, 0)
    ∧ initial_pressure x y = 0
    ∧ initial_divergence x y = 0 := by
  have hseed : ∀ a b : Nat, seed_val a b
      = max 0 (1 - (((a : ℚ) - 128) ^ 2 + ((b : ℚ) - 128) ^ 2) / 30 ^ 2) := by
    intro a b
    simp only [seed_val, GRID_SIZE]
    rw [max_comm]
    norm_num
    ring_nf
  refine ⟨hseed x y, ?_, ?_, rfl, by decide, rfl, rfl, rfl⟩
  · rw [hseed x2 y2]
    have hle : 1 - (((x2 : ℚ) - 128) ^ 2 + ((y2 : ℚ) - 128) ^ 2) / 30 ^ 2 ≤ 0 := by
      rw [sub_nonpos, le_div_iff₀ (by norm_num : (0 : ℚ) < 30 ^ 2)]
      linarith
    exact max_eq_left hle
  · simp only [seed_val, GRID_SIZE]
    norm_num

/-- Witness for `seed_blob_spec`: the cell `(200, 128)` lies at
squared distance `5184 ≥ 900` from the centre and seeds density `0`;
the centre cell seeds density `1`. -/
theorem seed_blob_spec_witness :
    seed_val 200 128 = 0 ∧ seed_val 128 128 = 1 :=
  ⟨(seed_blob_spec 0 0 200 128 (by norm_num)).2.1,
   (seed_blob_spec 0 0 200 128 (by norm_num)).2.2.1⟩

/-- The exponent field of a 32-bit pattern is at most 255. -/
theorem f32exp_field_le (bits : Nat) : f32exp_field bits ≤ 255 :=
  Nat.and_le_right

/-- The fraction field of a 32-bit pattern is below `2 ^ 23`. -/
theorem f32frac_field_lt (bits : Nat) : f32frac_field bits < 2 ^ 23 := by
  have h : f32frac_field bits ≤ 0x7FFFFF := Nat.and_le_right
  omega

/-- The sign bit of a 32-bit pattern is 0 or 1. -/
theorem f32signBit_le (bits : Nat) (hb : bits < 2 ^ 32) : f32signBit bits ≤ 1 := by
  simp only [f32signBit, Nat.shiftRight_eq_div_pow]
  omega

/-- The source's sign computation `(bits >> 16) & 0x8000` extracts the
sign bit shifted into position 15. -/
theorem f32sign_field_eq (bits : Nat) (hb : bits < 2 ^ 32) :
    f32sign_field bits = f32signBit bits * 2 ^ 15 := by
  simp only [f32sign_field, f32signBit]
  have h1 : (0x8000 : Nat) = 2 ^ 15 := by norm_num
  rw [h1, Nat.and_two_pow, Nat.testBit_to_div_mod]
  simp only [Nat.shiftRight_eq_div_pow, Nat.div_div_eq_div_mul]
  have h2 : (2 : Nat) ^ 16 * 2 ^ 15 = 2 ^ 31 := by norm_num
  rw [h2]
  have h3 : bits / 2 ^ 31 ≤ 1 := by omega
  rcases Nat.le_one_iff_eq_zero_or_eq_one.mp h3 with h4 | h4 <;> rw [h4] <;> decide

/-- A pattern whose biased half exponent would be nonpositive
(exponent field at most 112) converts to the zero pattern. -/
theorem f32_to_f16_low (bits : Nat) (he : f32exp_field bits ≤ 112) :
    f32_to_f16 bits = 0 := by
  simp only [f32_to_f16]
  rw [if_pos (by omega : (f32exp_field bits : Int) - 127 + 15 ≤ 0)]

/-- Claim C8: `f32_to_f16` as a pure function on 32-bit patterns:
every finite input whose magnitude is below `2 ^ (-14)`, the smallest
normal half-precision value (equivalently, whose biased half exponent
is nonpositive), returns the pattern `0`, discarding the sign; every
input whose biased half exponent is at least 31 — including every
NaN — returns signed infinity `sign ||| 0x7C00`; every other input
keeps its sign, rebases the exponent by `-112`, and truncates the
fraction to its top 10 bits (round toward zero). -/
theorem f32_to_f16_spec (bits : Nat) (hb : bits < 2 ^ 32) :
    (f32exp_field bits ≠ 255 → f32mag bits < 1 / 2 ^ 14 → f32_to_f16 bits = 0)
    ∧ (143 ≤ f32exp_field bits →
        f32_to_f16 bits = f32signBit bits <<< 15 ||| 0x7C00)
    ∧ (f32IsNaN bits →
        f32_to_f16 bits = f32signBit bits <<< 15 ||| 0x7C00)
    ∧ (112 < f32exp_field bits → f32exp_field bits < 143 →
        f32_to_f16 bits = f32signBit bits <<< 15
          ||| ((f32exp_field bits - 112) <<< 10)
          ||| (f32frac_field bits / 2 ^ 13)) := by
  have hs1 : f32signBit bits ≤ 1 := f32signBit_le bits hb
  have hf23 : f32frac_field bits < 2 ^ 23 := f32frac_field_lt bits
  have hinf : 143 ≤ f32exp_field bits →
      f32_to_f16 bits = f32signBit bits <<< 15 ||| 0x7C00 := by
    intro he
    simp only [f32_to_f16]
    rw [if_neg (by omega : ¬((f32exp_field bits : Int) - 127 + 15 ≤ 0)),
      if_pos (by omega : (31 : Int) ≤ (f32exp_field bits : Int) - 127 + 15)]
    rw [f32sign_field_eq bits hb, Nat.shiftLeft_eq]
    exact Nat.mod_eq_of_lt (Nat.or_lt_two_pow (by omega) (by norm_num))
  refine ⟨?_, hinf, fun hn => hinf (by have h1 := hn.1; omega), ?_⟩
  · intro hfin hmag
    by_cases he : f32exp_field bits ≤ 112
    · exact f32_to_f16_low bits he
    · exfalso
      have he0 : f32exp_field bits ≠ 0 := by omega
      rw [f32mag, if_neg he0] at hmag
      have h2e : (2 : ℚ) ^ 113 ≤ 2 ^ f32exp_field bits :=
        pow_le_pow_right₀ (by norm_num) (by omega)
      have hfq : (0 : ℚ) ≤ (f32frac_field bits : ℚ) := Nat.cast_nonneg _
      have hge : ((2 : ℚ) ^ 23) * 2 ^ 113
          ≤ ((2 : ℚ) ^ 23 + (f32frac_field bits : ℚ)) * 2 ^ f32exp_field bits := by
        apply mul_le_mul (by linarith) h2e (by positivity) (by positivity)
      have hone : (1 : ℚ) / 2 ^ 14 = ((2 : ℚ) ^ 23) * 2 ^ 113 / 2 ^ 150 := by
        norm_num
      have hle : (1 : ℚ) / 2 ^ 14
          ≤ ((2 : ℚ) ^ 23 + (f32frac_field bits : ℚ)) * 2 ^ f32exp_field bits / 2 ^ 150 := by
        rw [hone]
        exact div_le_div_of_nonneg_right hge (by positivity)
      linarith
  · intro he1 he2
    simp only [f32_to_f16]
    rw [if_neg (by omega : ¬((f32exp_field bits : Int) - 127 + 15 ≤ 0)),
      if_neg (by omega : ¬((31 : Int) ≤ (f32exp_field bits : Int) - 127 + 15))]
    have htn : ((f32exp_field bits : Int) - 127 + 15).toNat = f32exp_field bits - 112 := by
      omega
    rw [htn, f32sign_field_eq bits hb]
    simp only [Nat.shiftLeft_eq, Nat.shiftRight_eq_div_pow]
    apply Nat.mod_eq_of_lt
    apply Nat.or_lt_two_pow
    · apply Nat.or_lt_two_pow
      · omega
      · omega
    · omega

/-- Witness for `f32_to_f16_spec` on four concrete patterns: a
subnormal (`0x80000001`, negative, tiny magnitude), a quiet NaN
(`0x7FC00000`), negative infinity (`0xFF800000`), and `-1.0`
(`0xBF800000`). -/
theorem f32_to_f16_spec_witness :
    f32_to_f16 0x80000001 = 0
    ∧ f32_to_f16 0x7FC00000 = f32signBit 0x7FC00000 <<< 15 ||| 0x7C00
    ∧ f32_to_f16 0xFF800000 = f32signBit 0xFF800000 <<< 15 ||| 0x7C00
    ∧ f32_to_f16 0xBF800000 = f32signBit 0xBF800000 <<< 15
        ||| ((f32exp_field 0xBF800000 - 112) <<< 10)
        ||| (f32frac_field 0xBF800000 / 2 ^ 13) :=
  ⟨(f32_to_f16_spec 0x80000001 (by norm_num)).1 (by decide)
      (by norm_num [f32mag, (by decide : f32exp_field 0x80000001 = 0),
        (by decide : f32frac_field 0x80000001 = 1)]),
   (f32_to_f16_spec 0x7FC00000 (by norm_num)).2.2.1 ⟨by decide, by decide⟩,
   (f32_to_f16_spec 0xFF800000 (by norm_num)).2.1 (by decide),
   (f32_to_f16_spec 0xBF800000 (by norm_num)).2.2.2 (by decide) (by decide)⟩

end WgpuFluid
